import Mathlib

/-!
Shallow embedding of the driftsql driver-dispatch layer.

The definitions below translate the TypeScript source of the repository
(`src/types.ts`, `src/index.ts` / the `SQLClient` module, the per-backend
drivers under `src/drivers/`, and the schema inspector `src/pull.ts`) into
Lean.  Asynchronous, fallible TypeScript methods become total Lean
functions returning `Except JsError _`; the behaviour of the external
native database clients is passed in as explicit `Except`-valued
parameters, so each embedded function is exactly the control flow of the
corresponding TypeScript method.
-/

set_option linter.unusedVariables false

/-- A JavaScript value as it appears in query parameter lists:
string, number, boolean or null.  Numbers are modelled as integers. -/
inductive Value where
  | str (s : String)
  | num (n : Int)
  | bool (b : Bool)
  | null
deriving DecidableEq, Repr

/-- A JavaScript error as thrown by this library.  `error` is a plain
`new Error(msg)`, `typeError` a runtime `TypeError` (e.g. a null
dereference), and `dbError` / `dbErrorWrap` model the `DatabaseError`
class of `src/types.ts` (fields: `name`, `message`, `driverType`,
optional `originalError`) without / with a wrapped original error. -/
inductive JsError where
  | error (message : String)
  | typeError (message : String)
  | dbError (name message driverType : String)
  | dbErrorWrap (name message driverType : String) (originalError : JsError)
deriving DecidableEq, Repr

/-- Builds a `DatabaseError`-shaped value from the optional
`originalError` constructor argument. -/
def mkDbError (name message driverType : String) : Option JsError → JsError
  | none => .dbError name message driverType
  | some e => .dbErrorWrap name message driverType e

/-- The `name` property of the error. -/
def JsError.errorName : JsError → String
  | .error _ => "Error"
  | .typeError _ => "TypeError"
  | .dbError n _ _ => n
  | .dbErrorWrap n _ _ _ => n

/-- The `message` property of the error. -/
def JsError.message : JsError → String
  | .error m => m
  | .typeError m => m
  | .dbError _ m _ => m
  | .dbErrorWrap _ m _ _ => m

/-- The `driverType` property of a `DatabaseError`; `none` for plain
JavaScript errors, which have no such field. -/
def JsError.driverTag : JsError → Option String
  | .error _ => none
  | .typeError _ => none
  | .dbError _ _ d => d
  | .dbErrorWrap _ _ d _ => d

/-- The `originalError` property of a `DatabaseError`. -/
def JsError.originalError : JsError → Option JsError
  | .dbErrorWrap _ _ _ e => some e
  | _ => none

/-- Template-literal stringification of an error, as in `` `${error}` ``:
the `name`, a colon and the `message`. -/
def JsError.display (e : JsError) : String :=
  e.errorName ++ ": " ++ e.message

/-- Constructor of `QueryError` (src/types.ts): message
`"Query failed: " ++ sql`, name `"QueryError"`. -/
def QueryError.make (driverType sql : String) (originalError : Option JsError) : JsError :=
  mkDbError "QueryError" ("Query failed: " ++ sql) driverType originalError

/-- Constructor of `DatabaseError` (src/types.ts) with no original error. -/
def DatabaseError.make (message driverType : String) : JsError :=
  JsError.dbError "DatabaseError" message driverType

/-- Column metadata of a query result (src/types.ts `QueryField`). -/
structure QueryField where
  name : String
  dataTypeID : Nat
deriving DecidableEq, Repr

/-- Normalized query result (src/types.ts `QueryResult`). -/
structure QueryResult (α : Type) where
  rows : List α
  rowCount : Nat
  command : Option String := none
  fields : List QueryField := []
deriving DecidableEq, Repr

/-- Models the fallback loop of `SQLClient.query`: the drivers' query
outcomes are consumed in order with the most recent error kept in the
`lastError` accumulator; a success returns immediately; an exhausted list
throws the accumulated last error (or, unreachably for a nonempty driver
list, the generic `DatabaseError`). -/
def SQLClient.tryDrivers {α : Type} : List (Except JsError α) → Option JsError → Except JsError α
  | [], none => .error (DatabaseError.make "All drivers failed to execute query" "unknown")
  | [], some e => .error e
  | .ok v :: _, _ => .ok v
  | .error e :: rest, _ => SQLClient.tryDrivers rest (some e)

/-- `SQLClient.query` iterates over `[primaryDriver, ...fallbackDrivers]`;
each list element is that driver's `query` outcome for the given SQL and
parameters. -/
def SQLClient.query {α : Type} (primary : Except JsError α)
    (fallbacks : List (Except JsError α)) : Except JsError α :=
  SQLClient.tryDrivers (primary :: fallbacks) none

lemma SQLClient.tryDrivers_append_ok {α : Type} (pre : List (Except JsError α)) (v : α)
    (post : List (Except JsError α)) (acc : Option JsError)
    (h : ∀ x ∈ pre, ∃ e, x = .error e) :
    SQLClient.tryDrivers (pre ++ .ok v :: post) acc = .ok v := by
  induction pre generalizing acc with
  | nil => rfl
  | cons x xs ih =>
    obtain ⟨e, he⟩ := h x (by simp)
    subst he
    exact ih (some e) (fun y hy => h y (by simp [hy]))

lemma SQLClient.tryDrivers_all_error {α : Type} (l : List (Except JsError α)) (e : JsError)
    (acc : Option JsError)
    (h : ∀ x ∈ l, ∃ e', x = .error e')
    (hl : l.getLast? = some (.error e)) :
    SQLClient.tryDrivers l acc = .error e := by
  induction l generalizing acc with
  | nil => simp at hl
  | cons x xs ih =>
    obtain ⟨e1, he1⟩ := h x (by simp)
    subst he1
    cases xs with
    | nil =>
      simp [List.getLast?] at hl
      simp [SQLClient.tryDrivers, hl]
    | cons y ys =>
      have hxs : (y :: ys).getLast? = some (.error e) := by
        rwa [List.getLast?_cons_cons] at hl
      exact ih (some e1) (fun z hz => h z (by simp [hz])) hxs

/-- C1: for a Client with primary driver P and ordered fallback drivers,
`client.query` attempts P's query first, then each fallback's query in
list order, returning the result of the first driver that succeeds; if
every driver fails, the thrown error is the one raised by the last driver
attempted, not the first. -/
theorem C1_client_query_fallback_order {α : Type} (primary : Except JsError α)
    (fallbacks : List (Except JsError α)) :
    (∀ (pre : List (Except JsError α)) (v : α) (post : List (Except JsError α)),
        primary :: fallbacks = pre ++ .ok v :: post →
        (∀ x ∈ pre, ∃ e, x = .error e) →
        SQLClient.query primary fallbacks = .ok v)
    ∧ (∀ e : JsError,
        (∀ x ∈ primary :: fallbacks, ∃ e', x = .error e') →
        (primary :: fallbacks).getLast? = some (.error e) →
        SQLClient.query primary fallbacks = .error e) := by
  constructor
  · intro pre v post hsplit hpre
    unfold SQLClient.query
    rw [hsplit]
    exact SQLClient.tryDrivers_append_ok pre v post none hpre
  · intro e hall hlast
    exact SQLClient.tryDrivers_all_error (primary :: fallbacks) e none hall hlast

/-- Witness for C1: primary fails, first fallback fails, second fallback
succeeds, so its result is returned; when all three fail, the surfaced
error is the last driver's, which differs from the primary's. -/
theorem C1_witness :
    SQLClient.query (Except.error (JsError.error "P down"))
        [Except.error (JsError.error "F1 down"), Except.ok (42 : Nat)] = Except.ok 42
    ∧ SQLClient.query (α := Nat) (Except.error (JsError.error "P down"))
        [Except.error (JsError.error "F1 down"), Except.error (JsError.error "F2 down")]
        = Except.error (JsError.error "F2 down")
    ∧ JsError.error "F2 down" ≠ JsError.error "P down" := by
  refine ⟨?_, ?_, by decide⟩
  · exact (C1_client_query_fallback_order (Except.error (JsError.error "P down"))
      [Except.error (JsError.error "F1 down"), Except.ok 42]).1
      [Except.error (JsError.error "P down"), Except.error (JsError.error "F1 down")] 42 []
      rfl (by intro x hx; simp only [List.mem_cons, List.not_mem_nil, or_false] at hx
              rcases hx with rfl | rfl <;> exact ⟨_, rfl⟩)
  · exact (C1_client_query_fallback_order (Except.error (JsError.error "P down"))
      [Except.error (JsError.error "F1 down"), Except.error (JsError.error "F2 down")]).2
      (JsError.error "F2 down")
      (by intro x hx; simp only [List.mem_cons, List.not_mem_nil, or_false] at hx
          rcases hx with rfl | rfl | rfl <;> exact ⟨_, rfl⟩)
      rfl

/-- Postgres-dialect SET clause: `k1 = $1, k2 = $2, ...` over the
insertion-ordered entries of the `data` object. -/
def pgSetClause (data : List (String × Value)) : String :=
  String.intercalate ", " (data.enum.map (fun p => p.2.1 ++ " = $" ++ toString (p.1 + 1)))

/-- Postgres-dialect WHERE clause: `k1 = $(n+1) AND k2 = $(n+2) AND ...`
where `n` is the number of placeholders already used. -/
def pgWhereClause (used : Nat) (whereC : List (String × Value)) : String :=
  String.intercalate " AND " (whereC.enum.map (fun p => p.2.1 ++ " = $" ++ toString (used + p.1 + 1)))

/-- MySQL-dialect SET clause: `k1 = ?, k2 = ?, ...`. -/
def mySetClause (data : List (String × Value)) : String :=
  String.intercalate ", " (data.map (fun kv => kv.1 ++ " = ?"))

/-- MySQL-dialect WHERE clause: `k1 = ? AND k2 = ? AND ...`. -/
def myWhereClause (whereC : List (String × Value)) : String :=
  String.intercalate " AND " (whereC.map (fun kv => kv.1 ++ " = ?"))

/-- `PostgresDriver.update` (src/drivers/postgres.ts).  JavaScript objects
are modelled as insertion-ordered association lists (the order
`Object.entries` yields).  The function either throws before touching the
backend (`.error`) or hands exactly one SQL text with its parameter list
to `this.query` (`.ok`); an `.error` result therefore means no SQL was
issued. -/
def PostgresDriver.update (table : String) (data whereC : List (String × Value)) :
    Except JsError (String × List Value) :=
  if data.length = 0 then .error (JsError.error "No data provided for update")
  else if whereC.length = 0 then .error (JsError.error "No conditions provided for update")
  else
    let sql := "UPDATE " ++ table ++ " SET " ++ pgSetClause data
      ++ " WHERE " ++ pgWhereClause data.length whereC ++ " RETURNING *"
    .ok (sql, data.map Prod.snd ++ whereC.map Prod.snd)

/-- `PostgresDriver.delete` (src/drivers/postgres.ts): empty-`where`
guard, then a single `DELETE` statement passed to `this.query`. -/
def PostgresDriver.deleteRows (table : String) (whereC : List (String × Value)) :
    Except JsError (String × List Value) :=
  if whereC.length = 0 then .error (JsError.error "No conditions provided for delete")
  else .ok ("DELETE FROM " ++ table ++ " WHERE " ++ pgWhereClause 0 whereC,
    whereC.map Prod.snd)

/-- `MySQLDriver.update` (src/drivers/mysql.ts): same guards; on the
non-empty path it issues the `UPDATE` followed by a `SELECT` of the
updated rows, so the `.ok` value is the ordered list of the two issued
statements. -/
def MySQLDriver.update (table : String) (data whereC : List (String × Value)) :
    Except JsError (List (String × List Value)) :=
  if data.length = 0 then .error (JsError.error "No data provided for update")
  else if whereC.length = 0 then .error (JsError.error "No conditions provided for update")
  else
    let whereClause := myWhereClause whereC
    let sql := "UPDATE " ++ table ++ " SET " ++ mySetClause data ++ " WHERE " ++ whereClause
    let selectSql := "SELECT * FROM " ++ table ++ " WHERE " ++ whereClause
    .ok [(sql, data.map Prod.snd ++ whereC.map Prod.snd),
         (selectSql, whereC.map Prod.snd)]

/-- `MySQLDriver.delete` (src/drivers/mysql.ts). -/
def MySQLDriver.deleteRows (table : String) (whereC : List (String × Value)) :
    Except JsError (String × List Value) :=
  if whereC.length = 0 then .error (JsError.error "No conditions provided for delete")
  else .ok ("DELETE FROM " ++ table ++ " WHERE " ++ myWhereClause whereC,
    whereC.map Prod.snd)

/-- C2: `update` with an empty `data` object or an empty `where` object,
and `delete` with an empty `where` object, throw the empty-input error
and hand no SQL at all to the underlying query function (the `.error`
result carries no statement), for the postgres and mysql drivers. -/
theorem C2_empty_input_guards (t : String) (kv : String × Value) (d w : List (String × Value)) :
    PostgresDriver.update t [] w = .error (JsError.error "No data provided for update")
    ∧ PostgresDriver.update t (kv :: d) [] = .error (JsError.error "No conditions provided for update")
    ∧ PostgresDriver.deleteRows t [] = .error (JsError.error "No conditions provided for delete")
    ∧ MySQLDriver.update t [] w = .error (JsError.error "No data provided for update")
    ∧ MySQLDriver.update t (kv :: d) [] = .error (JsError.error "No conditions provided for update")
    ∧ MySQLDriver.deleteRows t [] = .error (JsError.error "No conditions provided for delete") := by
  refine ⟨rfl, ?_, rfl, rfl, ?_, rfl⟩
  · simp [PostgresDriver.update]
  · simp [MySQLDriver.update]

/-- The concrete driver classes of the repository. -/
inductive DriverKind where
  | postgres
  | mysql
  | libsql
  | sqlite
  | neon
  | sqlitecloud
deriving DecidableEq, Repr

/-- The `constructor.name` string of each driver class. -/
def DriverKind.className : DriverKind → String
  | .postgres => "PostgresDriver"
  | .mysql => "MySQLDriver"
  | .libsql => "LibSQLDriver"
  | .sqlite => "SqliteDriver"
  | .neon => "NeonDriver"
  | .sqlitecloud => "SqliteCloudDriver"

/-- A driver instance: its class and the identity of the native
client/connection handle it holds (`this.client`). -/
structure Driver where
  kind : DriverKind
  conn : Nat
  /-- For a `PostgresDriver`: whether `this.client` is the
  `PostgresHTTPDriver` (the experimental HTTP configuration) rather than
  a `postgres.Sql` connection.  Meaningless for the other classes. -/
  httpClient : Bool := false
deriving DecidableEq, Repr

/-- `hasTransactionSupport` (src/types.ts): the structural probe
`'transaction' in driver && typeof driver.transaction === 'function'`.
The postgres, mysql, libsql and sqlite classes define a `transaction`
method; neon and sqlitecloud do not. -/
def hasTransactionSupport (d : Driver) : Bool :=
  match d.kind with
  | .postgres | .mysql | .libsql | .sqlite => true
  | .neon | .sqlitecloud => false

/-- Backend transaction-control commands observable on the connection. -/
inductive TxCmd where
  | beginTx
  | commitTx
  | rollbackTx
deriving DecidableEq, Repr

/-- `MySQLDriver.transaction` (src/drivers/mysql.ts): issues
`beginTransaction` on the shared connection, builds a transaction-scoped
`MySQLDriver` whose `client` is that same connection, runs the callback
with it, commits on normal return and rolls back and rethrows when the
callback or the commit throws.  The callback is modelled as a function
from the scoped driver to its outcome; `commitRes` is the backend's
response to the `commit` command.  The result pairs the ordered trace of
transaction-control commands issued on the connection with the value or
error the method returns. -/
def MySQLDriver.transaction {α : Type} (d : Driver) (cb : Driver → Except JsError α)
    (commitRes : Except JsError Unit) : List TxCmd × Except JsError α :=
  let sDriver : Driver := { kind := .mysql, conn := d.conn }
  match cb sDriver with
  | .error e => ([.beginTx, .rollbackTx], .error e)
  | .ok a =>
    match commitRes with
    | .ok _ => ([.beginTx, .commitTx], .ok a)
    | .error e => ([.beginTx, .commitTx, .rollbackTx], .error e)

/-- `LibSQLDriver.transaction` (src/drivers/libsql.ts): constructs a
scoped `LibSQLDriver`, overwrites its `client` with the parent's client,
and runs the callback with it — issuing no transaction-control command at
all: no begin, no commit, and no rollback when the callback throws. -/
def LibSQLDriver.transaction {α : Type} (d : Driver) (cb : Driver → Except JsError α) :
    List TxCmd × Except JsError α :=
  let sDriver : Driver := { kind := .libsql, conn := d.conn }
  ([], cb sDriver)

/-- Counterexample for C4: the LibSQL driver is transaction-capable (the
structural probe succeeds), yet its `transaction` opens no backend
transaction and, when the callback throws, rethrows without ever issuing
a rollback — the command trace is empty. -/
theorem C4_counterexample :
    hasTransactionSupport { kind := .libsql, conn := 7 } = true
    ∧ LibSQLDriver.transaction { kind := .libsql, conn := 7 }
        (fun _ => (Except.error (JsError.error "callback failed") : Except JsError Nat))
        = ([], Except.error (JsError.error "callback failed"))
    ∧ TxCmd.beginTx ∉ (LibSQLDriver.transaction { kind := .libsql, conn := 7 }
        (fun _ => (Except.error (JsError.error "callback failed") : Except JsError Nat))).1
    ∧ TxCmd.rollbackTx ∉ (LibSQLDriver.transaction { kind := .libsql, conn := 7 }
        (fun _ => (Except.error (JsError.error "callback failed") : Except JsError Nat))).1 := by
  refine ⟨rfl, rfl, by simp [LibSQLDriver.transaction], by simp [LibSQLDriver.transaction]⟩

/-- C4 (amended): `MySQLDriver.transaction` opens a backend transaction,
invokes the callback with a transaction-scoped driver sharing the
already-open connection, commits on normal return, and rolls back and
rethrows when the callback or the commit throws; `LibSQLDriver.transaction`
shares the already-open client with its scoped driver and propagates the
callback's outcome, but issues no begin, commit or rollback. -/
theorem C4_transaction_semantics {α : Type} (d : Driver) (a : α) (e ec : JsError)
    (commitRes : Except JsError Unit) :
    (∀ cb : Driver → Except JsError α, cb { kind := .mysql, conn := d.conn } = .ok a →
        MySQLDriver.transaction d cb (.ok ()) = ([.beginTx, .commitTx], .ok a))
    ∧ (∀ cb : Driver → Except JsError α, cb { kind := .mysql, conn := d.conn } = .error e →
        MySQLDriver.transaction d cb commitRes = ([.beginTx, .rollbackTx], .error e))
    ∧ (∀ cb : Driver → Except JsError α, cb { kind := .mysql, conn := d.conn } = .ok a →
        MySQLDriver.transaction d cb (.error ec) = ([.beginTx, .commitTx, .rollbackTx], .error ec))
    ∧ MySQLDriver.transaction d (fun drv => (Except.ok drv.conn : Except JsError Nat)) (.ok ())
        = ([.beginTx, .commitTx], .ok d.conn)
    ∧ LibSQLDriver.transaction d (fun drv => (Except.ok drv.conn : Except JsError Nat))
        = ([], .ok d.conn)
    ∧ (∀ cb : Driver → Except JsError α, (LibSQLDriver.transaction d cb).1 = []) := by
  refine ⟨?_, ?_, ?_, rfl, rfl, fun cb => rfl⟩
  · intro cb hcb
    simp [MySQLDriver.transaction, hcb]
  · intro cb hcb
    simp [MySQLDriver.transaction, hcb]
  · intro cb hcb
    simp [MySQLDriver.transaction, hcb]

/-- Witness for C4's amended theorem: a concrete mysql driver on
connection 3 with a callback returning 7 commits; with a failing callback
it rolls back and rethrows; with a failing commit it rolls back and
surfaces the commit error. -/
theorem C4_witness :
    MySQLDriver.transaction { kind := .mysql, conn := 3 }
        (fun _ => (Except.ok (7 : Nat) : Except JsError Nat)) (.ok ())
        = ([.beginTx, .commitTx], .ok 7)
    ∧ MySQLDriver.transaction { kind := .mysql, conn := 3 }
        (fun _ => (Except.error (JsError.error "cb boom") : Except JsError Nat)) (.ok ())
        = ([.beginTx, .rollbackTx], .error (JsError.error "cb boom"))
    ∧ MySQLDriver.transaction { kind := .mysql, conn := 3 }
        (fun _ => (Except.ok (7 : Nat) : Except JsError Nat))
        (.error (JsError.error "commit boom"))
        = ([.beginTx, .commitTx, .rollbackTx], .error (JsError.error "commit boom")) := by
  refine ⟨?_, ?_, ?_⟩
  · exact (C4_transaction_semantics { kind := .mysql, conn := 3 } 7
      (JsError.error "x") (JsError.error "y") (.ok ())).1 _ rfl
  · exact (C4_transaction_semantics (α := Nat) { kind := .mysql, conn := 3 } 7
      (JsError.error "cb boom") (JsError.error "y") (.ok ())).2.1 _ rfl
  · exact (C4_transaction_semantics { kind := .mysql, conn := 3 } 7
      (JsError.error "x") (JsError.error "commit boom") (.ok ())).2.2.1 _ rfl

/-- `PostgresDriver.transaction` (src/drivers/postgres.ts): when
`this.client` is the `PostgresHTTPDriver` it throws
`'Transactions not supported with HTTP driver'` before anything else, so
the callback is never invoked and no transaction command is issued.
Otherwise `postgres.js`'s `begin` opens a backend transaction, the
callback runs with a scoped `PostgresDriver` whose `client` is the
reserved connection, a normal return commits, and a throw from the
callback or the commit rolls back and rethrows. -/
def PostgresDriver.transaction {α : Type} (d : Driver) (cb : Driver → Except JsError α)
    (commitRes : Except JsError Unit) : List TxCmd × Except JsError α :=
  if d.httpClient then
    ([], .error (JsError.error "Transactions not supported with HTTP driver"))
  else
  let sDriver : Driver := { kind := .postgres, conn := d.conn }
  match cb sDriver with
  | .error e => ([.beginTx, .rollbackTx], .error e)
  | .ok a =>
    match commitRes with
    | .ok _ => ([.beginTx, .commitTx], .ok a)
    | .error e => ([.beginTx, .commitTx, .rollbackTx], .error e)

/-- `SqliteDriver.transaction` (src/drivers/sqlite.ts): better-sqlite3's
transaction wrapper brackets the function in begin/commit, rolling back
on a throw; the scoped `SqliteDriver`'s `client` is the parent's. -/
def SqliteDriver.transaction {α : Type} (d : Driver) (cb : Driver → Except JsError α)
    (commitRes : Except JsError Unit) : List TxCmd × Except JsError α :=
  let sDriver : Driver := { kind := .sqlite, conn := d.conn }
  match cb sDriver with
  | .error e => ([.beginTx, .rollbackTx], .error e)
  | .ok a =>
    match commitRes with
    | .ok _ => ([.beginTx, .commitTx], .ok a)
    | .error e => ([.beginTx, .commitTx, .rollbackTx], .error e)

/-- Dispatch of `driver.transaction(callback)` to the concrete class's
method.  The neon and sqlitecloud branches are unreachable behind the
`hasTransactionSupport` guard: those classes define no such method. -/
def Driver.transaction {α : Type} (d : Driver) (cb : Driver → Except JsError α)
    (commitRes : Except JsError Unit) : List TxCmd × Except JsError α :=
  match d.kind with
  | .postgres => PostgresDriver.transaction d cb commitRes
  | .mysql => MySQLDriver.transaction d cb commitRes
  | .libsql => LibSQLDriver.transaction d cb
  | .sqlite => SqliteDriver.transaction d cb commitRes
  | .neon | .sqlitecloud => ([], .error (JsError.error "no transaction method"))

/-- The `SQLClient` class: one primary driver plus ordered fallbacks. -/
structure SQLClient where
  primaryDriver : Driver
  fallbackDrivers : List Driver
deriving DecidableEq, Repr

/-- `SQLClient.transaction` (src/unnamed/part_004): throws the
capability-missing `DatabaseError` when the structural probe fails on the
primary driver; otherwise calls the primary driver's `transaction` with a
callback that wraps the transaction-scoped driver in a fresh `SQLClient`
with an empty fallback list. -/
def SQLClient.transaction {α : Type} (c : SQLClient) (cb : SQLClient → Except JsError α)
    (commitRes : Except JsError Unit) : List TxCmd × Except JsError α :=
  if !(hasTransactionSupport c.primaryDriver) then
    ([], .error (DatabaseError.make "Primary driver does not support transactions"
        c.primaryDriver.kind.className))
  else
    Driver.transaction c.primaryDriver
      (fun td => cb { primaryDriver := td, fallbackDrivers := [] }) commitRes

/-- C3: with a primary driver lacking a transaction method,
`client.transaction` throws the capability-missing error and never
invokes the callback (the outcome is the same for every callback); the
fallback drivers play no role in `transaction` at all (the outcome is
invariant under replacing them); with a transaction-capable primary
other than an HTTP-configured postgres, the callback observes a
transaction-scoped client whose fallback-driver list is empty; and an
HTTP-configured postgres primary — which passes the structural
capability probe — throws the HTTP-unsupported error with no transaction
command issued and without ever invoking the callback. -/
theorem C3_transaction_capability_gating {α : Type} (c : SQLClient)
    (cb : SQLClient → Except JsError α) (commitRes : Except JsError Unit) :
    (hasTransactionSupport c.primaryDriver = false →
        SQLClient.transaction c cb commitRes
          = ([], .error (DatabaseError.make "Primary driver does not support transactions"
              c.primaryDriver.kind.className))
        ∧ ∀ cb' : SQLClient → Except JsError α,
            SQLClient.transaction c cb commitRes = SQLClient.transaction c cb' commitRes)
    ∧ (∀ fbs : List Driver,
        SQLClient.transaction { primaryDriver := c.primaryDriver, fallbackDrivers := fbs }
            cb commitRes
          = SQLClient.transaction c cb commitRes)
    ∧ (hasTransactionSupport c.primaryDriver = true →
        ¬(c.primaryDriver.kind = .postgres ∧ c.primaryDriver.httpClient = true) →
        (SQLClient.transaction c
            (fun cl => (Except.ok cl.fallbackDrivers : Except JsError (List Driver)))
            (.ok ())).2 = .ok [])
    ∧ (c.primaryDriver.kind = .postgres → c.primaryDriver.httpClient = true →
        hasTransactionSupport c.primaryDriver = true
        ∧ SQLClient.transaction c cb commitRes
            = ([], .error (JsError.error "Transactions not supported with HTTP driver"))
        ∧ ∀ cb' : SQLClient → Except JsError α,
            SQLClient.transaction c cb commitRes = SQLClient.transaction c cb' commitRes) := by
  refine ⟨?_, fun fbs => rfl, ?_, ?_⟩
  · intro h
    refine ⟨by simp [SQLClient.transaction, h], fun cb' => by simp [SQLClient.transaction, h]⟩
  · intro h hnh
    rcases hk : c.primaryDriver.kind <;>
      simp_all [SQLClient.transaction, Driver.transaction, hasTransactionSupport,
        PostgresDriver.transaction, MySQLDriver.transaction, LibSQLDriver.transaction,
        SqliteDriver.transaction]
  · intro hk hh
    refine ⟨by simp [hasTransactionSupport, hk], ?_, fun cb' => ?_⟩ <;>
      simp [SQLClient.transaction, Driver.transaction, hasTransactionSupport, hk, hh,
        PostgresDriver.transaction]

/-- Witness for C3: a neon primary (no transaction method) yields the
capability-missing error; a libsql primary passes the callback a
transaction-scoped client with an empty fallback list even though the
outer client has a fallback driver; an HTTP-configured postgres primary
passes the capability probe yet throws the HTTP-unsupported error. -/
theorem C3_witness :
    SQLClient.transaction (α := Nat)
        { primaryDriver := { kind := .neon, conn := 0 },
          fallbackDrivers := [{ kind := .libsql, conn := 1 }] }
        (fun _ => Except.ok 5) (.ok ())
      = ([], .error (DatabaseError.make "Primary driver does not support transactions"
          "NeonDriver"))
    ∧ (SQLClient.transaction
        { primaryDriver := { kind := .libsql, conn := 0 },
          fallbackDrivers := [{ kind := .mysql, conn := 1 }] }
        (fun cl => (Except.ok cl.fallbackDrivers : Except JsError (List Driver)))
        (.ok ())).2 = .ok []
    ∧ SQLClient.transaction (α := Nat)
        { primaryDriver := { kind := .postgres, conn := 2, httpClient := true },
          fallbackDrivers := [] }
        (fun _ => Except.ok 9) (.ok ())
      = ([], .error (JsError.error "Transactions not supported with HTTP driver")) := by
  refine ⟨?_, ?_, ?_⟩
  · exact ((C3_transaction_capability_gating (α := Nat)
      { primaryDriver := { kind := .neon, conn := 0 },
        fallbackDrivers := [{ kind := .libsql, conn := 1 }] }
      (fun _ => Except.ok 5) (.ok ())).1 rfl).1
  · exact (C3_transaction_capability_gating (α := List Driver)
      { primaryDriver := { kind := .libsql, conn := 0 },
        fallbackDrivers := [{ kind := .mysql, conn := 1 }] }
      (fun cl => Except.ok cl.fallbackDrivers) (.ok ())).2.2.1 rfl (by decide)
  · exact ((C3_transaction_capability_gating (α := Nat)
      { primaryDriver := { kind := .postgres, conn := 2, httpClient := true },
        fallbackDrivers := [] }
      (fun _ => Except.ok 9) (.ok ())).2.2.2 rfl rfl).2.1

/-- The `SELECT * FROM <table> [WHERE ...]` builder shared by the
postgres-dialect `findFirst`/`findMany` (src/drivers/postgres.ts) and
duplicated verbatim in the legacy client (src/index.ts): the WHERE clause
and its parameters are added only when the where object has entries. -/
def pgSelectSql (table : String) (whereC : List (String × Value)) : String × List Value :=
  let base := "SELECT * FROM " ++ table
  if 0 < whereC.length then
    (base ++ " WHERE " ++ pgWhereClause 0 whereC, whereC.map Prod.snd)
  else (base, [])

/-- The SQL and parameters `PostgresDriver.findFirst` passes to
`this.query`: the select with ` LIMIT 1` appended. -/
def PostgresDriver.findFirstSql (table : String) (whereC : List (String × Value)) :
    String × List Value :=
  ((pgSelectSql table whereC).1 ++ " LIMIT 1", (pgSelectSql table whereC).2)

/-- The tail of `PostgresDriver.findFirst` after `this.query` resolves:
a query failure propagates; otherwise the whole result is returned when
it has at least one row and `null` (here `none`) when zero rows matched. -/
def PostgresDriver.findFirst {α : Type} (queryRes : Except JsError (QueryResult α)) :
    Except JsError (Option (QueryResult α)) :=
  match queryRes with
  | .error e => .error e
  | .ok r => .ok (if 0 < r.rows.length then some r else none)

/-- `SQLClient.findFirst` (src/unnamed/part_004) given the primary
driver's `findFirst` outcome.  The body runs inside a try/catch that
rethrows anything as `QueryError('findFirst', ...)`.  `response!.rows[0]`
dereferences the driver's `null` result, so the zero-rows case raises a
`TypeError` that the catch wraps and rethrows. -/
def SQLClient.findFirst {α : Type} (table : String)
    (driverRes : Except JsError (Option (QueryResult α))) : Except JsError (Option α) :=
  match driverRes with
  | .error e => .error (QueryError.make "findFirst" ("Error finding first in " ++ table) (some e))
  | .ok none => .error (QueryError.make "findFirst" ("Error finding first in " ++ table)
      (some (JsError.typeError "Cannot read properties of null (reading 'rows')")))
  | .ok (some r) => .ok r.rows.head?

/-- C5 evaluation at the failing input: the driver-level `findFirst`
correctly maps a zero-row backend response to the `null` sentinel, but
the client-level `SQLClient.findFirst` dereferences that `null`
(`response!.rows[0]`) and throws a `QueryError` wrapping the `TypeError`,
instead of returning the sentinel. -/
theorem C5_findFirst_null_crash :
    PostgresDriver.findFirst (α := Nat) (.ok { rows := [], rowCount := 0 }) = .ok none
    ∧ SQLClient.findFirst (α := Nat) "users" (.ok none)
        = .error (QueryError.make "findFirst" "Error finding first in users"
            (some (JsError.typeError "Cannot read properties of null (reading 'rows')")))
    ∧ (SQLClient.findFirst (α := Nat) "users" (.ok none)).isOk = false
    ∧ SQLClient.findFirst (α := Nat) "users"
        (.ok (some { rows := [3], rowCount := 1 })) = .ok (some 3) := by
  refine ⟨rfl, by simp [SQLClient.findFirst, QueryError.make, mkDbError], rfl, rfl⟩

/-- `PostgresDriver.findMany` (src/drivers/postgres.ts): the SQL and
parameter list passed to `this.query`.  ` LIMIT $n` is appended, and the
limit bound as a parameter, exactly when the limit option is a number
greater than zero (`typeof limit === 'number' && limit > 0`); likewise
` OFFSET $n` for the offset option, after the limit. -/
def PostgresDriver.findMany (table : String) (whereC : List (String × Value))
    (limit offset : Option Int) : String × List Value :=
  let base := pgSelectSql table whereC
  let withLimit : String × List Value :=
    match limit with
    | some l =>
      if 0 < l then (base.1 ++ " LIMIT $" ++ toString (base.2.length + 1),
        base.2 ++ [Value.num l])
      else base
    | none => base
  match offset with
  | some o =>
    if 0 < o then (withLimit.1 ++ " OFFSET $" ++ toString (withLimit.2.length + 1),
      withLimit.2 ++ [Value.num o])
    else withLimit
  | none => withLimit

/-- `DriftSQLClient.findMany` (src/index.ts, the legacy client): same
construction, but its options carry no offset at all — only a limit,
appended exactly when positive. -/
def DriftSQLClient.findMany (table : String) (whereC : List (String × Value))
    (limit : Option Int) : String × List Value :=
  let base := pgSelectSql table whereC
  match limit with
  | some l =>
    if 0 < l then (base.1 ++ " LIMIT $" ++ toString (base.2.length + 1),
      base.2 ++ [Value.num l])
    else base
  | none => base

/-- C8: `findMany` appends ` LIMIT $n` (binding one extra parameter)
exactly when the limit option is a positive number, and ` OFFSET $n`
exactly when the offset option is a positive number; a missing or
non-positive option leaves the SQL and parameter list untouched.  The
legacy `DriftSQLClient.findMany` has only the limit option, with the same
behaviour, and no offset clause at all. -/
theorem C8_findMany_limit_offset (t : String) (w : List (String × Value)) (l : Option Int) :
    (∀ i : Int, 0 < i →
        PostgresDriver.findMany t w (some i) none
          = ((pgSelectSql t w).1 ++ " LIMIT $" ++ toString ((pgSelectSql t w).2.length + 1),
             (pgSelectSql t w).2 ++ [Value.num i]))
    ∧ (∀ (i : Int) (o : Option Int), i ≤ 0 →
        PostgresDriver.findMany t w (some i) o = PostgresDriver.findMany t w none o)
    ∧ (∀ j : Int, 0 < j →
        PostgresDriver.findMany t w l (some j)
          = ((PostgresDriver.findMany t w l none).1 ++ " OFFSET $"
              ++ toString ((PostgresDriver.findMany t w l none).2.length + 1),
             (PostgresDriver.findMany t w l none).2 ++ [Value.num j]))
    ∧ (∀ j : Int, j ≤ 0 →
        PostgresDriver.findMany t w l (some j) = PostgresDriver.findMany t w l none)
    ∧ PostgresDriver.findMany t w none none = pgSelectSql t w
    ∧ (∀ i : Int, 0 < i →
        DriftSQLClient.findMany t w (some i)
          = ((pgSelectSql t w).1 ++ " LIMIT $" ++ toString ((pgSelectSql t w).2.length + 1),
             (pgSelectSql t w).2 ++ [Value.num i]))
    ∧ (∀ i : Int, i ≤ 0 →
        DriftSQLClient.findMany t w (some i) = DriftSQLClient.findMany t w none)
    ∧ DriftSQLClient.findMany t w none = pgSelectSql t w := by
  refine ⟨?_, ?_, ?_, ?_, rfl, ?_, ?_, rfl⟩
  · intro i hi
    simp [PostgresDriver.findMany, hi]
  · intro i o hi
    simp [PostgresDriver.findMany, show ¬(0 < i) from by omega]
  · intro j hj
    cases l with
    | none => simp [PostgresDriver.findMany, hj]
    | some i => by_cases hi : 0 < i <;> simp [PostgresDriver.findMany, hj, hi]
  · intro j hj
    cases l with
    | none => simp [PostgresDriver.findMany, show ¬(0 < j) from by omega]
    | some i => by_cases hi : 0 < i <;>
        simp [PostgresDriver.findMany, hi, show ¬(0 < j) from by omega]
  · intro i hi
    simp [DriftSQLClient.findMany, hi]
  · intro i hi
    simp [DriftSQLClient.findMany, show ¬(0 < i) from by omega]

/-- Witness for C8: with `where {id: 1}`, a positive limit 10 and offset 5
both clauses appear with their bound parameters; limit 0 and offset -3
produce the bare select with no extra parameter; the legacy client with
limit 10 appends only the LIMIT clause. -/
theorem C8_witness :
    PostgresDriver.findMany "users" [("id", Value.num 1)] (some 10) (some 5)
      = ("SELECT * FROM users WHERE id = $1 LIMIT $2 OFFSET $3",
         [Value.num 1, Value.num 10, Value.num 5])
    ∧ PostgresDriver.findMany "users" [("id", Value.num 1)] (some 0) (some (-3))
      = ("SELECT * FROM users WHERE id = $1", [Value.num 1])
    ∧ DriftSQLClient.findMany "users" [("id", Value.num 1)] (some 10)
      = ("SELECT * FROM users WHERE id = $1 LIMIT $2", [Value.num 1, Value.num 10]) := by
  refine ⟨?_, ?_, ?_⟩
  · have h := (C8_findMany_limit_offset "users" [("id", Value.num 1)] (some 10)).2.2.1
      5 (by norm_num)
    rw [h]
    rfl
  · have h2 := (C8_findMany_limit_offset "users" [("id", Value.num 1)] (some 0)).2.1
      0 (some (-3)) (by norm_num)
    have h4 := (C8_findMany_limit_offset "users" [("id", Value.num 1)] none).2.2.2.1
      (-3) (by norm_num)
    rw [h2, h4]
    rfl
  · have h6 := (C8_findMany_limit_offset "users" [("id", Value.num 1)]
      none).2.2.2.2.2.1 10 (by norm_num)
    rw [h6]
    rfl

/-- JavaScript's `toLowerCase` on the character list of the string
(ASCII letters lowered, as `Char.toLower` does). -/
def jsToLower (s : String) : String :=
  ⟨s.data.map Char.toLower⟩

/-- Case-by-case lookup modelling the `switch (lowerType)` statement:
first matching key wins, `none` when no case matches. -/
def lookupType (k : String) : List (String × String) → Option String
  | [] => none
  | (k', v) :: rest => if k = k' then some v else lookupType k rest

/-- The case labels of `mapDatabaseTypeToTypeScript`'s switch
(src/pull.ts) with the base type each group of cases returns. -/
def typeCategoryMap : List (String × String) :=
  [("uuid", "string"),
   ("character varying", "string"), ("varchar", "string"), ("text", "string"),
   ("char", "string"), ("character", "string"), ("longtext", "string"),
   ("mediumtext", "string"), ("tinytext", "string"),
   ("integer", "number"), ("int", "number"), ("int4", "number"),
   ("smallint", "number"), ("int2", "number"), ("bigint", "number"),
   ("int8", "number"), ("serial", "number"), ("bigserial", "number"),
   ("numeric", "number"), ("decimal", "number"), ("real", "number"),
   ("float4", "number"), ("double precision", "number"), ("float8", "number"),
   ("tinyint", "number"), ("mediumint", "number"), ("float", "number"),
   ("double", "number"),
   ("boolean", "boolean"), ("bool", "boolean"), ("bit", "boolean"),
   ("timestamp", "Date"), ("timestamp with time zone", "Date"),
   ("timestamp without time zone", "Date"), ("timestamptz", "Date"),
   ("date", "Date"), ("time", "Date"), ("time with time zone", "Date"),
   ("time without time zone", "Date"), ("timetz", "Date"), ("interval", "Date"),
   ("datetime", "Date"), ("year", "Date"),
   ("json", "any"), ("jsonb", "any"),
   ("array", "any[]"),
   ("bytea", "Buffer"), ("binary", "Buffer"), ("varbinary", "Buffer"),
   ("blob", "Buffer"), ("longblob", "Buffer"), ("mediumblob", "Buffer"),
   ("tinyblob", "Buffer"),
   ("enum", "string"), ("set", "string")]

/-- `mapDatabaseTypeToTypeScript` (src/pull.ts): lower-cases the incoming
type name, switches over the case table, falls back to `any` in the
default case (which also emits a non-fatal console warning naming
`driverType`), and appends `" | null"` when the column is nullable. -/
def mapDatabaseTypeToTypeScript (dataType : String) (isNullable : Bool)
    (driverType : String) : String :=
  let nullable := if isNullable then " | null" else ""
  let lowerType := jsToLower dataType
  match lookupType lowerType typeCategoryMap with
  | some base => base ++ nullable
  | none => "any" ++ nullable

lemma lookupType_mem_values (k : String) (l : List (String × String)) (v : String)
    (h : lookupType k l = some v) : v ∈ l.map Prod.snd := by
  induction l with
  | nil => simp [lookupType] at h
  | cons p rest ih =>
    obtain ⟨k', v'⟩ := p
    by_cases hk : k = k'
    · simp [lookupType, hk] at h
      simp [h]
    · simp only [lookupType, if_neg hk] at h
      simpa using Or.inr (ih h)

/-- C6: the backend-type-to-TypeScript mapping is total — every input
string, matched case-insensitively, yields one of the fixed base
categories; an unknown type name falls back to `any`; and a nullable
column appends the `" | null"` union. -/
theorem C6_type_mapping_total (t : String) (n : Bool) (d : String) :
    (∃ base ∈ ["string", "number", "boolean", "Date", "any", "any[]", "Buffer"],
        mapDatabaseTypeToTypeScript t n d = base ++ (if n then " | null" else ""))
    ∧ (lookupType (jsToLower t) typeCategoryMap = none →
        mapDatabaseTypeToTypeScript t n d = "any" ++ (if n then " | null" else ""))
    ∧ (∀ t' : String, jsToLower t = jsToLower t' →
        mapDatabaseTypeToTypeScript t n d = mapDatabaseTypeToTypeScript t' n d) := by
  refine ⟨?_, ?_, ?_⟩
  · cases h : lookupType (jsToLower t) typeCategoryMap with
    | none => exact ⟨"any", by simp, by simp [mapDatabaseTypeToTypeScript, h]⟩
    | some base =>
      refine ⟨base, ?_, by simp [mapDatabaseTypeToTypeScript, h]⟩
      have hmem := lookupType_mem_values _ _ _ h
      have hsub : ∀ x ∈ typeCategoryMap.map Prod.snd,
          x ∈ ["string", "number", "boolean", "Date", "any", "any[]", "Buffer"] := by decide
      exact hsub base hmem
  · intro h
    simp [mapDatabaseTypeToTypeScript, h]
  · intro t' h
    simp [mapDatabaseTypeToTypeScript, h]

/-- Witness for C6: the unrecognized name `made_up_type_xyz` maps to the
`any` fallback with the null union appended; `VARCHAR` and `varchar` map
identically, to `string`. -/
theorem C6_witness :
    mapDatabaseTypeToTypeScript "made_up_type_xyz" true "postgres" = "any | null"
    ∧ mapDatabaseTypeToTypeScript "VARCHAR" false "postgres"
        = mapDatabaseTypeToTypeScript "varchar" false "postgres"
    ∧ mapDatabaseTypeToTypeScript "varchar" false "postgres" = "string" := by
  refine ⟨?_, ?_, by decide⟩
  · have h := (C6_type_mapping_total "made_up_type_xyz" true "postgres").2.1 (by decide)
    simpa using h
  · exact (C6_type_mapping_total "VARCHAR" false "postgres").2.2 "varchar" (by decide)

/-- `PostgresDriver.query` (src/drivers/postgres.ts, TCP client): the
native client's outcome for the statement is `backend`; a failure is
wrapped as `QueryError('postgres', sql, error)`. -/
def PostgresDriver.query {α : Type} (backend : Except JsError (List α)) (sql : String) :
    Except JsError (QueryResult α) :=
  match backend with
  | .ok rows => .ok { rows := rows, rowCount := rows.length }
  | .error e => .error (QueryError.make "postgres" sql (some e))

/-- `MySQLDriver.query` (src/drivers/mysql.ts): rows plus normalized
field metadata on success; failures wrapped as
`QueryError('mysql', sql, error)`. -/
def MySQLDriver.query {α : Type} (backend : Except JsError (List α × List QueryField))
    (sql : String) : Except JsError (QueryResult α) :=
  match backend with
  | .ok rf => .ok { rows := rf.1, rowCount := rf.1.length, fields := rf.2 }
  | .error e => .error (QueryError.make "mysql" sql (some e))

/-- `LibSQLDriver.query` (src/drivers/libsql.ts): `backend` is the
already-converted result of `convertLibsqlResult`; failures wrapped as
`QueryError('libsql', sql, error)`. -/
def LibSQLDriver.query {α : Type} (backend : Except JsError (QueryResult α)) (sql : String) :
    Except JsError (QueryResult α) :=
  match backend with
  | .ok r => .ok r
  | .error e => .error (QueryError.make "libsql" sql (some e))

/-- `NeonDriver.query` (src/drivers/neon.ts): on failure it throws
`new QueryError('neon', `Failed to query database: ${error}`)` — the
stringified native error stands where the SQL belongs and no
`originalError` argument is passed. -/
def NeonDriver.query {α : Type} (backend : Except JsError (List α)) (sql : String) :
    Except JsError (QueryResult α) :=
  match backend with
  | .ok rows => .ok { rows := rows, rowCount := rows.length }
  | .error e => .error (QueryError.make "neon" ("Failed to query database: " ++ e.display) none)

/-- Counterexample for C7: the QueryError the Neon driver throws carries
no wrapped original error (`originalError` is `none`) and its message is
the stringified native error, not the SQL text that was attempted. -/
theorem C7_counterexample :
    NeonDriver.query (α := Nat) (.error (JsError.error "socket hang up")) "SELECT 1"
      = .error (JsError.dbError "QueryError"
          "Query failed: Failed to query database: Error: socket hang up" "neon")
    ∧ (JsError.dbError "QueryError"
        "Query failed: Failed to query database: Error: socket hang up" "neon").originalError
        = none
    ∧ (JsError.dbError "QueryError"
        "Query failed: Failed to query database: Error: socket hang up" "neon").message
        ≠ "Query failed: " ++ "SELECT 1" := by
  refine ⟨rfl, rfl, by decide⟩

/-- C7 (amended): the postgres, mysql and libsql drivers' QueryErrors
identify the backend in `driverType`, carry the exact SQL in the message
and wrap the original error; the Neon driver's QueryError instead embeds
the stringified native error where the SQL belongs and drops the original
error; the Client's CRUD-helper QueryErrors carry the operation name as
`driverType` and a descriptive message rather than the SQL, wrapping the
caught error. -/
theorem C7_query_error_contents {α : Type} (sql tbl : String) (e : JsError) :
    ((QueryError.make "postgres" sql (some e)).driverTag = some "postgres"
      ∧ (QueryError.make "postgres" sql (some e)).message = "Query failed: " ++ sql
      ∧ (QueryError.make "postgres" sql (some e)).originalError = some e)
    ∧ PostgresDriver.query (α := α) (.error e) sql
        = .error (QueryError.make "postgres" sql (some e))
    ∧ MySQLDriver.query (α := α) (.error e) sql
        = .error (QueryError.make "mysql" sql (some e))
    ∧ LibSQLDriver.query (α := α) (.error e) sql
        = .error (QueryError.make "libsql" sql (some e))
    ∧ NeonDriver.query (α := α) (.error e) sql
        = .error (QueryError.make "neon" ("Failed to query database: " ++ e.display) none)
    ∧ (QueryError.make "neon" ("Failed to query database: " ++ e.display) none).originalError
        = none
    ∧ SQLClient.findFirst (α := α) tbl (.error e)
        = .error (QueryError.make "findFirst" ("Error finding first in " ++ tbl) (some e))
    ∧ (QueryError.make "findFirst" ("Error finding first in " ++ tbl) (some e)).driverTag
        = some "findFirst" := by
  exact ⟨⟨rfl, rfl, rfl⟩, rfl, rfl, rfl, rfl, rfl, rfl, rfl⟩

/-- The per-driver `.catch` wrapper in `SQLClient.close`: a failed close
resolves anyway, logging a warning (`true`); a clean close logs none. -/
def closeWithCatch (r : Except JsError Unit) : Except JsError Bool :=
  match r with
  | .ok _ => .ok false
  | .error _ => .ok true

/-- `Promise.all`: succeeds with all values when every promise resolves,
fails when any rejects. -/
def promiseAll {α : Type} : List (Except JsError α) → Except JsError (List α)
  | [] => .ok []
  | .error e :: _ => .error e
  | .ok v :: rs =>
    match promiseAll rs with
    | .ok vs => .ok (v :: vs)
    | .error e => .error e

/-- `SQLClient.close` (src/unnamed/part_004): maps every owned driver's
close outcome through the warn-and-swallow `.catch` and awaits them all. -/
def SQLClient.close (primaryRes : Except JsError Unit)
    (fallbackRes : List (Except JsError Unit)) : Except JsError (List Bool) :=
  promiseAll ((primaryRes :: fallbackRes).map closeWithCatch)

lemma promiseAll_map_closeWithCatch (l : List (Except JsError Unit)) :
    promiseAll (l.map closeWithCatch)
      = .ok (l.map fun r => match r with | .ok _ => false | .error _ => true) := by
  induction l with
  | nil => rfl
  | cons r rs ih => cases r <;> simp [promiseAll, closeWithCatch, ih]

/-- C9: `close` attempts every owned driver (one close outcome per
driver, primary included), never propagates an error to the caller, and
logs a warning exactly for the drivers whose close failed — one driver's
failure does not prevent the attempts on the others. -/
theorem C9_close_best_effort (p : Except JsError Unit) (fs : List (Except JsError Unit)) :
    ∃ warns : List Bool,
      SQLClient.close p fs = .ok warns
      ∧ warns.length = fs.length + 1
      ∧ ∀ i : Nat, warns.get? i = some true ↔ ∃ e, (p :: fs).get? i = some (.error e) := by
  refine ⟨(p :: fs).map (fun r => match r with | .ok _ => false | .error _ => true),
    ?_, by simp, ?_⟩
  · unfold SQLClient.close
    exact promiseAll_map_closeWithCatch (p :: fs)
  intro i
  rw [List.get?_map]
  cases h : (p :: fs).get? i with
  | none => simp
  | some r => cases r <;> simp

/-- Witness for C9: the primary's close and the second fallback's close
both throw; close still resolves, having attempted all three drivers and
logged the two failures. -/
theorem C9_witness :
    (SQLClient.close (.error (JsError.error "primary close boom"))
        [.ok (), .error (JsError.error "fallback close boom")]).isOk = true
    ∧ SQLClient.close (.error (JsError.error "primary close boom"))
        [.ok (), .error (JsError.error "fallback close boom")] = .ok [true, false, true] := by
  obtain ⟨w, h1, h2, h3⟩ := C9_close_best_effort (.error (JsError.error "primary close boom"))
    [.ok (), .error (JsError.error "fallback close boom")]
  exact ⟨by rw [h1]; rfl, rfl⟩

/-- The presence flags of `options.drivers` in the legacy
`DriftSQLClient` (src/index.ts), in the interface's declaration order. -/
structure DriftDrivers where
  libsql : Bool
  postgres : Bool
  postgresHTTP : Bool
  mysql : Bool
deriving DecidableEq, Repr

/-- The configured-driver count computed at the top of
`DriftSQLClient.query`: the number of keys of `this.drivers` whose value
is defined. -/
def DriftDrivers.count (d : DriftDrivers) : Nat :=
  (if d.libsql then 1 else 0) + (if d.postgres then 1 else 0)
  + (if d.postgresHTTP then 1 else 0) + (if d.mysql then 1 else 0)

/-- `DriftSQLClient.query` (src/index.ts): the multiple-driver guard
throws before any driver branch runs; then the branches are tried in
source order — the postgres pool (whose failure is only logged, falling
through), the mysql client (rethrows on failure), the libsql client
(rethrows on failure), and finally the always-present HTTP client.  The
`postgresClient` branch is omitted: that field is never assigned. -/
def DriftSQLClient.query {α : Type} (cfg : DriftDrivers)
    (poolRes mysqlRes libsqlRes httpRes : Except JsError α) : Except JsError α :=
  if 1 < cfg.count then
    .error (JsError.error "Multiple drivers are configured. Please use only one driver at a time.")
  else if cfg.postgres then
    match poolRes with
    | .ok r => .ok r
    | .error _ =>
      if cfg.mysql then mysqlRes else if cfg.libsql then libsqlRes else httpRes
  else if cfg.mysql then mysqlRes
  else if cfg.libsql then libsqlRes
  else httpRes

/-- C10: with more than one configured driver, `query` throws the
multiple-drivers error whatever every driver would have answered (no
driver is attempted); with at most one configured driver the guard never
fires and dispatch reaches the configured driver — mysql and libsql
answer directly, a failing postgres pool falls through to the HTTP
client, and with no driver configured the HTTP client answers. -/
theorem C10_multi_driver_guard {α : Type} (cfg : DriftDrivers)
    (p m l h : Except JsError α) :
    (1 < cfg.count →
        DriftSQLClient.query cfg p m l h
          = .error (JsError.error
              "Multiple drivers are configured. Please use only one driver at a time."))
    ∧ (cfg = ⟨false, false, false, true⟩ → DriftSQLClient.query cfg p m l h = m)
    ∧ (cfg = ⟨true, false, false, false⟩ → DriftSQLClient.query cfg p m l h = l)
    ∧ (cfg = ⟨false, true, false, false⟩ →
        DriftSQLClient.query cfg p m l h
          = match p with | .ok r => .ok r | .error _ => h)
    ∧ (cfg = ⟨false, false, true, false⟩ → DriftSQLClient.query cfg p m l h = h)
    ∧ (cfg = ⟨false, false, false, false⟩ → DriftSQLClient.query cfg p m l h = h) := by
  refine ⟨?_, ?_, ?_, ?_, ?_, ?_⟩
  · intro hc
    simp [DriftSQLClient.query, hc]
  · intro hc
    subst hc
    simp [DriftSQLClient.query, DriftDrivers.count]
  · intro hc
    subst hc
    simp [DriftSQLClient.query, DriftDrivers.count]
  · intro hc
    subst hc
    cases p <;> simp [DriftSQLClient.query, DriftDrivers.count]
  · intro hc
    subst hc
    simp [DriftSQLClient.query, DriftDrivers.count]
  · intro hc
    subst hc
    simp [DriftSQLClient.query, DriftDrivers.count]

/-- Witness for C10: postgres and mysql both configured makes `query`
throw the multiple-drivers error even though every driver would succeed;
with only mysql configured, the mysql result is returned. -/
theorem C10_witness :
    DriftSQLClient.query (α := Nat) ⟨false, true, false, true⟩
        (.ok 1) (.ok 2) (.ok 3) (.ok 4)
      = .error (JsError.error
          "Multiple drivers are configured. Please use only one driver at a time.")
    ∧ DriftSQLClient.query (α := Nat) ⟨false, false, false, true⟩
        (.ok 1) (.ok 2) (.ok 3) (.ok 4) = .ok 2 := by
  constructor
  · exact (C10_multi_driver_guard ⟨false, true, false, true⟩
      (.ok 1) (.ok 2) (.ok 3) (.ok 4)).1 (by decide)
  · exact (C10_multi_driver_guard ⟨false, false, false, true⟩
      (.ok 1) (.ok 2) (.ok 3) (.ok 4)).2.1 rfl
